import Mathlib

/-!
Shallow embedding of the core of `ig_media_downloader` (an Instagram media
batch downloader) and proofs about it.

The embedding follows `src/ig_media_downloader/downloader.py` and
`src/ig_media_downloader/models.py`:

* `PyExc` models the exception values the downloader dispatches on
  (`instaloader.exceptions.ConnectionException`,
  `ProfileNotExistsException`, `PrivateProfileNotFollowedException`,
  `OSError` with its errno, and everything else).
* `classify` models the severity tiers used by `_handle_download_error`
  and the specification (Fatal / Retryable / RecoverableSkip).
* `retryFromList` / `retry_on_connection_error` embed
  `IGDownloader._retry_on_connection_error` (the intra-item connection
  retry wrapper), with the `for attempt in range(max_retries)` loop made
  explicit as structural recursion over the list of attempt indices,
  and the `time.sleep` calls recorded in an explicit sleep trace.
* `batchRetryFromList` / `download_url_with_retry` embed the per-URL
  retry loop of `IGDownloader.download_posts_from_urls` (batch-URL
  mode), which catches bare `Exception` and records failures instead of
  re-raising.
* `clamp_max_workers` embeds the worker-count clamp in
  `IGDownloader.__init__`.
-/

namespace IGMediaDownloader

/-- Errno values distinguished by the downloader's `OSError` handling. -/
inductive OSErrno where
  | enospc
  | eacces
  | other
deriving DecidableEq, Repr

/-- Exception values raised through the downloader, as dispatched on by its
`except` clauses.  `connectionException` carries the exception message so
that "re-raises the last error" is expressible. -/
inductive PyExc where
  | connectionException (msg : String)
  | profileNotExists
  | privateProfileNotFollowed
  | osError (errno : OSErrno)
  | valueError
  | otherException
deriving DecidableEq, Repr

/-- Severity tiers of the specification's error classifier. -/
inductive Severity where
  | fatal
  | retryable
  | recoverableSkip
deriving DecidableEq, Repr

/-- The error classifier: the dispatch performed by
`IGDownloader._handle_download_error` (account missing / private /
disk-full / permission-denied abort; connection failures are retryable;
everything else is logged and skipped). -/
def classify : PyExc → Severity
  | .connectionException _ => .retryable
  | .profileNotExists => .fatal
  | .privateProfileNotFollowed => .fatal
  | .osError .enospc => .fatal
  | .osError .eacces => .fatal
  | .osError .other => .recoverableSkip
  | .valueError => .recoverableSkip
  | .otherException => .recoverableSkip

/-- The type test performed by `except ConnectionException`. -/
def PyExc.isConnectionException : PyExc → Bool
  | .connectionException _ => true
  | _ => false

/-- Loop body of `IGDownloader._retry_on_connection_error`, recursing over
the remaining attempt indices of `range(max_retries)`.  Returns the number
of invocations of the wrapped operation, the trace of sleep durations, and
the outcome: `.ok (some v)` when an attempt returned `v`, `.error e` when
an exception propagated, and `.ok none` for the Python fall-through
(`return None`, reachable only with `max_retries = 0`). -/
def retryFromList {α : Type} (op : Nat → Except PyExc α) (maxRetries : Nat) :
    List Nat → Nat → List Nat → Nat × List Nat × Except PyExc (Option α)
  | [], calls, sleeps => (calls, sleeps, .ok none)
  | attempt :: rest, calls, sleeps =>
    match op attempt with
    | .ok v => (calls + 1, sleeps, .ok (some v))
    | .error e =>
      if e.isConnectionException then
        if attempt < maxRetries - 1 then
          retryFromList op maxRetries rest (calls + 1) (sleeps ++ [attempt + 1])
        else (calls + 1, sleeps, .error e)
      else (calls + 1, sleeps, .error e)

/-- Embedding of `IGDownloader._retry_on_connection_error(func, max_retries)`: the
wrapped operation is given as a function from the attempt index to the
attempt's outcome. -/
def retry_on_connection_error {α : Type} (op : Nat → Except PyExc α) (maxRetries : Nat) :
    Nat × List Nat × Except PyExc (Option α) :=
  retryFromList op maxRetries (List.range maxRetries) 0 []

/-- Outcome of one URL in batch-URL mode: either the successful download's
value, or the failure appended to `failed_urls` carrying `last_error`. -/
inductive BatchItemResult (α : Type) where
  | success (v : α)
  | recordedFailure (lastError : Option PyExc)
deriving DecidableEq, Repr

/-- Loop body of the per-URL retry loop in
`IGDownloader.download_posts_from_urls` (single-thread branch; the
multi-thread `download_with_retry` closure has the same structure).  It
catches every `Exception`, sleeps `(attempt + 1) * 2` between attempts,
and on exhaustion records the failure instead of re-raising. -/
def batchRetryFromList {α : Type} (op : Nat → Except PyExc α) (maxRetries : Nat) :
    List Nat → Nat → List Nat → Option PyExc → Nat × List Nat × BatchItemResult α
  | [], calls, sleeps, lastError => (calls, sleeps, .recordedFailure lastError)
  | attempt :: rest, calls, sleeps, _ =>
    match op attempt with
    | .ok v => (calls + 1, sleeps, .success v)
    | .error e =>
      if attempt < maxRetries - 1 then
        batchRetryFromList op maxRetries rest (calls + 1) (sleeps ++ [(attempt + 1) * 2]) (some e)
      else (calls + 1, sleeps, .recordedFailure (some e))

/-- The whole-item retry loop of `download_posts_from_urls` for one URL. -/
def download_url_with_retry {α : Type} (op : Nat → Except PyExc α) (maxRetries : Nat) :
    Nat × List Nat × BatchItemResult α :=
  batchRetryFromList op maxRetries (List.range maxRetries) 0 [] none

/-- Embedding of `IGDownloader.__init__`: `self.max_workers = min(max_workers, 8)`. -/
def clamp_max_workers (maxWorkers : Int) : Int :=
  min maxWorkers 8

/-!
## Progress ledger (`_load_progress` / `_save_progress`)

The on-disk ledger is JSON; `JsonVal` models an arbitrary parsed JSON
value (`json.load` output), so that the corruption-tolerance behaviour of
`_load_progress` is expressible.
-/

/-- A parsed JSON value, as produced by `json.load`. -/
inductive JsonVal where
  | null
  | bool (b : Bool)
  | num (n : Int)
  | str (s : String)
  | arr (elems : List JsonVal)
  | obj (fields : List (String × JsonVal))
deriving Repr

mutual

def JsonVal.decEq : (a b : JsonVal) → Decidable (a = b)
  | .null, .null => isTrue rfl
  | .bool a, .bool b =>
    match Bool.decEq a b with
    | isTrue h => isTrue (by rw [h])
    | isFalse h => isFalse (fun hh => h (by injection hh))
  | .num a, .num b =>
    match Int.decEq a b with
    | isTrue h => isTrue (by rw [h])
    | isFalse h => isFalse (fun hh => h (by injection hh))
  | .str a, .str b =>
    match String.decEq a b with
    | isTrue h => isTrue (by rw [h])
    | isFalse h => isFalse (fun hh => h (by injection hh))
  | .arr as, .arr bs =>
    match JsonVal.decEqList as bs with
    | isTrue h => isTrue (by rw [h])
    | isFalse h => isFalse (fun hh => h (by injection hh))
  | .obj as, .obj bs =>
    match JsonVal.decEqFields as bs with
    | isTrue h => isTrue (by rw [h])
    | isFalse h => isFalse (fun hh => h (by injection hh))
  | .null, .bool _ => isFalse (fun h => JsonVal.noConfusion h)
  | .null, .num _ => isFalse (fun h => JsonVal.noConfusion h)
  | .null, .str _ => isFalse (fun h => JsonVal.noConfusion h)
  | .null, .arr _ => isFalse (fun h => JsonVal.noConfusion h)
  | .null, .obj _ => isFalse (fun h => JsonVal.noConfusion h)
  | .bool _, .null => isFalse (fun h => JsonVal.noConfusion h)
  | .bool _, .num _ => isFalse (fun h => JsonVal.noConfusion h)
  | .bool _, .str _ => isFalse (fun h => JsonVal.noConfusion h)
  | .bool _, .arr _ => isFalse (fun h => JsonVal.noConfusion h)
  | .bool _, .obj _ => isFalse (fun h => JsonVal.noConfusion h)
  | .num _, .null => isFalse (fun h => JsonVal.noConfusion h)
  | .num _, .bool _ => isFalse (fun h => JsonVal.noConfusion h)
  | .num _, .str _ => isFalse (fun h => JsonVal.noConfusion h)
  | .num _, .arr _ => isFalse (fun h => JsonVal.noConfusion h)
  | .num _, .obj _ => isFalse (fun h => JsonVal.noConfusion h)
  | .str _, .null => isFalse (fun h => JsonVal.noConfusion h)
  | .str _, .bool _ => isFalse (fun h => JsonVal.noConfusion h)
  | .str _, .num _ => isFalse (fun h => JsonVal.noConfusion h)
  | .str _, .arr _ => isFalse (fun h => JsonVal.noConfusion h)
  | .str _, .obj _ => isFalse (fun h => JsonVal.noConfusion h)
  | .arr _, .null => isFalse (fun h => JsonVal.noConfusion h)
  | .arr _, .bool _ => isFalse (fun h => JsonVal.noConfusion h)
  | .arr _, .num _ => isFalse (fun h => JsonVal.noConfusion h)
  | .arr _, .str _ => isFalse (fun h => JsonVal.noConfusion h)
  | .arr _, .obj _ => isFalse (fun h => JsonVal.noConfusion h)
  | .obj _, .null => isFalse (fun h => JsonVal.noConfusion h)
  | .obj _, .bool _ => isFalse (fun h => JsonVal.noConfusion h)
  | .obj _, .num _ => isFalse (fun h => JsonVal.noConfusion h)
  | .obj _, .str _ => isFalse (fun h => JsonVal.noConfusion h)
  | .obj _, .arr _ => isFalse (fun h => JsonVal.noConfusion h)

def JsonVal.decEqList : (as bs : List JsonVal) → Decidable (as = bs)
  | [], [] => isTrue rfl
  | [], _ :: _ => isFalse (fun h => List.noConfusion h)
  | _ :: _, [] => isFalse (fun h => List.noConfusion h)
  | a :: as, b :: bs =>
    match JsonVal.decEq a b with
    | isFalse h1 => isFalse (fun h => h1 (by injection h))
    | isTrue h1 =>
      match JsonVal.decEqList as bs with
      | isTrue h2 => isTrue (by rw [h1, h2])
      | isFalse h2 => isFalse (fun h => h2 (by injection h))

def JsonVal.decEqFields : (as bs : List (String × JsonVal)) → Decidable (as = bs)
  | [], [] => isTrue rfl
  | [], _ :: _ => isFalse (fun h => List.noConfusion h)
  | _ :: _, [] => isFalse (fun h => List.noConfusion h)
  | (k1, v1) :: as, (k2, v2) :: bs =>
    match String.decEq k1 k2 with
    | isFalse hk => isFalse (fun h => by
        injection h with h1 h2
        exact hk (congrArg Prod.fst h1))
    | isTrue hk =>
      match JsonVal.decEq v1 v2 with
      | isFalse hv => isFalse (fun h => by
          injection h with h1 h2
          exact hv (congrArg Prod.snd h1))
      | isTrue hv =>
        match JsonVal.decEqFields as bs with
        | isTrue ht => isTrue (by rw [hk, hv, ht])
        | isFalse ht => isFalse (fun h => ht (by injection h))

end

instance : DecidableEq JsonVal := JsonVal.decEq

/-- What `_load_progress` finds when it looks for the progress file: the
file may be absent, unreadable (`IOError`/`OSError` on read), undecodable
(`json.JSONDecodeError`: truncated, empty or garbage bytes), or a parsed
JSON value. -/
inductive LedgerFile where
  | missing
  | readError
  | invalidJson
  | content (v : JsonVal)

/-- Semantics of `dict.get(key, default)` on the parsed object.  `json.load` builds the
dict with later duplicate keys overriding earlier ones, hence the scan of
the reversed field list. -/
def jsonGet (fields : List (String × JsonVal)) (key : String) (dflt : JsonVal) : JsonVal :=
  match fields.reverse.find? (fun p => p.1 == key) with
  | some p => p.2
  | none => dflt

/-- Whether a JSON value is hashable as a Python value (lists and dicts
are not; `set(...)` raises `TypeError` on them). -/
def JsonVal.pyHashable : JsonVal → Bool
  | .arr _ => false
  | .obj _ => false
  | _ => true

/-- Python `set(x)`: `none` models the `TypeError` raised when `x` is not
iterable (`null`, `bool`, number) or contains an unhashable element; a
string iterates to its characters, a dict to its keys. -/
def pySet : JsonVal → Option (Finset JsonVal)
  | .arr es => if es.all JsonVal.pyHashable then some es.toFinset else none
  | .str s => some ((s.data.map (fun c => JsonVal.str (String.singleton c))).toFinset)
  | .obj fields => some ((fields.map (fun p => JsonVal.str p.1)).toFinset)
  | .null => none
  | .bool _ => none
  | .num _ => none

/-- Embedding of `IGDownloader._load_progress`: missing file, read error, JSON decode
error, a non-dict top level, and any error while building the sets (the
final `except Exception`) all yield the empty set; otherwise the result is
`set(data.get("downloaded_posts", [])) | set(data.get("downloaded_reels", []))`. -/
def load_progress : LedgerFile → Finset JsonVal
  | .missing => ∅
  | .readError => ∅
  | .invalidJson => ∅
  | .content (.obj fields) =>
    match pySet (jsonGet fields "downloaded_posts" (.arr [])),
          pySet (jsonGet fields "downloaded_reels" (.arr [])) with
    | some s1, some s2 => s1 ∪ s2
    | _, _ => ∅
  | .content _ => ∅

/-- The `data` dict written by `IGDownloader._save_progress`:
`downloaded_posts` holds `sorted(list(downloaded_posts))` and
`downloaded_reels` is always the empty list. -/
def save_progress_fields (username lastUpdated : String) (downloadedPosts : Finset String) :
    List (String × JsonVal) :=
  [("username", .str username),
   ("last_updated", .str lastUpdated),
   ("downloaded_posts", .arr ((downloadedPosts.sort (· ≤ ·)).map JsonVal.str)),
   ("downloaded_reels", .arr [])]

/-- The JSON object `_save_progress` serialises. -/
def save_progress_data (username lastUpdated : String) (downloadedPosts : Finset String) : JsonVal :=
  .obj (save_progress_fields username lastUpdated downloadedPosts)

/-!
## Sequential work scheduler (`_download_posts_parallel`, `max_workers == 1` branch)

`Outcome` is the `(images, videos, skipped)` triple `_download_post`
returns.  `download_posts_sequential` is the single-thread loop, given,
for each post in input order, what the `self._download_post(post,
username)` call did: returned an outcome or raised an exception.
-/

/-- Triple of `(downloaded images, downloaded videos, skipped files)`. -/
abbrev Outcome := Nat × Nat × Nat

/-- The `isinstance` test of the sequential loop (lines 470-478): the
error types it re-raises (`ConnectionException`, `OSError`,
`ProfileNotExistsException`, `PrivateProfileNotFollowedException`). -/
def severeInSeqLoop : PyExc → Bool
  | .connectionException _ => true
  | .osError _ => true
  | .profileNotExists => true
  | .privateProfileNotFollowed => true
  | .valueError => false
  | .otherException => false

/-- The `max_workers == 1` loop of `IGDownloader._download_posts_parallel`:
append each returned outcome in input order; on a raised error, re-raise
it when its type is in the severe tuple, otherwise append `(0, 0, 0)` and
continue with the next post. -/
def download_posts_sequential : List (Except PyExc Outcome) → Except PyExc (List Outcome)
  | [] => .ok []
  | item :: rest =>
    match item with
    | .ok r => (download_posts_sequential rest).map (r :: ·)
    | .error e =>
      if severeInSeqLoop e then .error e
      else (download_posts_sequential rest).map (((0, 0, 0) : Outcome) :: ·)

/-!
## Per-post download with resume (`_download_post`, `_is_already_downloaded`)
-/

/-- The attributes of an `instaloader.Post` that `_download_post` reads:
its shortcode, `is_video`, and for `typename == "GraphSidecar"` the
number of sidecar nodes. -/
structure Post where
  shortcode : String
  is_video : Bool
  sidecarNodes : Option Nat

/-- The downloader state touched by `_download_post`:
`downloaded_posts` is the in-memory resume set (`set[str]`), `persisted`
the posts set recorded in the on-disk progress file (`none` when no
ledger write has happened), `persistCount` the number of
`_save_progress` calls, and `providerCalls` the number of
`loader.download_post` invocations. -/
structure DLState where
  downloaded_posts : Finset String
  persisted : Option (Finset String)
  persistCount : Nat
  providerCalls : Nat
deriving DecidableEq

/-- Embedding of `IGDownloader._is_already_downloaded`. -/
def is_already_downloaded (st : DLState) (shortcode : String) : Bool :=
  shortcode ∈ st.downloaded_posts

/-- Success counters of `_download_post` (lines 380-394): one video for a
video post, the sidecar-node count for a carousel, otherwise one image. -/
def postCounts (post : Post) : Outcome :=
  if post.is_video then (0, 1, 0)
  else
    match post.sidecarNodes with
    | some n => (n, 0, 0)
    | none => (1, 0, 0)

/-- Embedding of `IGDownloader._download_post(post, username)`.  `existingFiles` is the
number of files the `glob` over the target directory finds for the post's
shortcode, and `fetch` is what the `loader.download_post` call did.  The
result is the new state and either the returned `(images, videos,
skipped)` triple or the re-raised exception. -/
def download_post (resume : Bool) (post : Post) (existingFiles : Nat)
    (fetch : Except PyExc Unit) (st : DLState) : DLState × Except PyExc Outcome :=
  if resume && is_already_downloaded st post.shortcode then
    (st, .ok (0, 0, 1))
  else if existingFiles > 0 then
    (st, .ok (0, 0, existingFiles))
  else
    let st := { st with providerCalls := st.providerCalls + 1 }
    match fetch with
    | .error e =>
      match e with
      | .connectionException msg => (st, .error (.connectionException msg))
      | .osError .enospc => (st, .error (.osError .enospc))
      | .osError .eacces => (st, .error (.osError .eacces))
      | .osError .other => (st, .ok (0, 0, 0))
      | _ => (st, .ok (0, 0, 0))
    | .ok _ =>
      if resume then
        let newSet := insert post.shortcode st.downloaded_posts
        ({ st with downloaded_posts := newSet, persisted := some newSet,
                   persistCount := st.persistCount + 1 }, .ok (postCounts post))
      else (st, .ok (postCounts post))

/-- One scheduled post: the post, the `glob` hit count for its shortcode,
and the behaviour of the provider `download_post` call. -/
abbrev PostJob := Post × Nat × Except PyExc Unit

/-- The `max_workers == 1` loop of `_download_posts_parallel` composed
with `_download_post`, threading the downloader state through the items
in input order. -/
def run_posts_sequential (resume : Bool) : List PostJob → DLState →
    DLState × Except PyExc (List Outcome)
  | [], st => (st, .ok [])
  | (post, existingFiles, fetch) :: rest, st =>
    match download_post resume post existingFiles fetch st with
    | (st', .ok r) =>
      match run_posts_sequential resume rest st' with
      | (st'', .ok rs) => (st'', .ok (r :: rs))
      | (st'', .error e) => (st'', .error e)
    | (st', .error e) =>
      if severeInSeqLoop e then (st', .error e)
      else
        match run_posts_sequential resume rest st' with
        | (st'', .ok rs) => (st'', .ok (((0, 0, 0) : Outcome) :: rs))
        | (st'', .error e2) => (st'', .error e2)

/-- Total skipped files over a list of outcomes. -/
def skippedTotal (rs : List Outcome) : Nat :=
  (rs.map (fun r => r.2.2)).sum

/-!
## Run statistics (`models.DownloadStats`) and the resume-load phase
-/

/-- Embedding of `models.DownloadStats` with times as integer timestamps. -/
structure DownloadStats where
  username : String
  total_posts : Nat
  downloaded_images : Nat
  downloaded_videos : Nat
  skipped_files : Nat
  errors : Nat
  output_directory : String
  start_time : Int
  end_time : Int
  stories_downloaded : Nat
  reels_downloaded : Nat
  resumed_from_previous : Bool

/-- Embedding of `DownloadStats.duration`: `end_time - start_time`. -/
def DownloadStats.duration (s : DownloadStats) : Int :=
  s.end_time - s.start_time

/-- Embedding of `DownloadStats.total_files`: sum of the success counters. -/
def DownloadStats.total_files (s : DownloadStats) : Nat :=
  s.downloaded_images + s.downloaded_videos + s.stories_downloaded + s.reels_downloaded

/-- Lines 1324-1332 of `download_user_media`: when resume is enabled the
ledger is loaded and `resumed_from_previous` is `len(...) > 0`; when it
is disabled nothing is loaded, `self.downloaded_posts` keeps its prior
value and the flag is `False`. -/
def load_phase (resume : Bool) (file : LedgerFile) (prior : Finset JsonVal) :
    Finset JsonVal × Bool :=
  if resume then
    let loaded := load_progress file
    (loaded, decide (0 < loaded.card))
  else (prior, false)

/-!
## Helper lemmas about the two retry loops

Each lemma characterises a retry loop on the tail `range' a n` of
`range maxRetries` (with `a + n = maxRetries`), by induction.
-/

/-- When the wrapped operation raises a `ConnectionException` on every
attempt, the intra-item retry loop invokes it once per remaining attempt,
sleeps `attempt + 1` seconds after every failed attempt but the last, and
re-raises the last attempt's error. -/
theorem retryFromList_conn_fail {α : Type} (op : Nat → Except PyExc α) (m : Nat)
    (errAt : Nat → String) :
    ∀ n a calls sleeps, 1 ≤ n → a + n = m →
      (∀ i, a ≤ i → i < m → op i = Except.error (.connectionException (errAt i))) →
      retryFromList op m (List.range' a n) calls sleeps
        = (calls + n, sleeps ++ List.range' (a + 1) (n - 1),
           Except.error (.connectionException (errAt (m - 1)))) := by
  intro n
  induction n with
  | zero => omega
  | succ n ih =>
    intro a calls sleeps _ h2 hop
    have hopa : op a = Except.error (.connectionException (errAt a)) := hop a le_rfl (by omega)
    cases n with
    | zero =>
      have ha : a = m - 1 := by omega
      subst ha
      simp [List.range'_succ, retryFromList, hopa, PyExc.isConnectionException]
    | succ n' =>
      rw [List.range'_succ]
      have hlt : a < m - 1 := by omega
      have step : retryFromList op m (a :: List.range' (a + 1) (n' + 1)) calls sleeps
          = retryFromList op m (List.range' (a + 1) (n' + 1)) (calls + 1) (sleeps ++ [a + 1]) := by
        simp [retryFromList, hopa, PyExc.isConnectionException, hlt]
      rw [step, ih (a + 1) (calls + 1) (sleeps ++ [a + 1]) (by omega) (by omega)
        (fun i hi1 hi2 => hop i (by omega) hi2)]
      refine Prod.ext (by omega) (Prod.ext ?_ rfl)
      show (sleeps ++ [a + 1]) ++ List.range' (a + 2) n' = sleeps ++ List.range' (a + 1) (n' + 1)
      rw [List.append_assoc, List.range'_succ]
      rfl

/-- When the first `k` attempts raise `ConnectionException` and attempt
`a + k` succeeds, the intra-item retry loop returns that attempt's value
after `k + 1` invocations, with one sleep after each failed attempt. -/
theorem retryFromList_first_ok {α : Type} (op : Nat → Except PyExc α) (m : Nat)
    (errAt : Nat → String) (v : α) :
    ∀ k a n calls sleeps, k < n → a + n = m →
      (∀ i, a ≤ i → i < a + k → op i = Except.error (.connectionException (errAt i))) →
      op (a + k) = Except.ok v →
      retryFromList op m (List.range' a n) calls sleeps
        = (calls + k + 1, sleeps ++ List.range' (a + 1) k, Except.ok (some v)) := by
  intro k
  induction k with
  | zero =>
    intro a n calls sleeps hk h2 _ hok
    obtain ⟨n', rfl⟩ : ∃ n', n = n' + 1 := ⟨n - 1, by omega⟩
    rw [List.range'_succ]
    simp only [Nat.add_zero] at hok
    simp [retryFromList, hok]
  | succ k ih =>
    intro a n calls sleeps hk h2 hconn hok
    obtain ⟨n', rfl⟩ : ∃ n', n = n' + 1 := ⟨n - 1, by omega⟩
    rw [List.range'_succ]
    have hopa : op a = Except.error (.connectionException (errAt a)) :=
      hconn a le_rfl (by omega)
    have hlt : a < m - 1 := by omega
    have step : retryFromList op m (a :: List.range' (a + 1) n') calls sleeps
        = retryFromList op m (List.range' (a + 1) n') (calls + 1) (sleeps ++ [a + 1]) := by
      simp [retryFromList, hopa, PyExc.isConnectionException, hlt]
    rw [step, ih (a + 1) n' (calls + 1) (sleeps ++ [a + 1]) (by omega) (by omega)
      (fun i hi1 hi2 => hconn i (by omega) (by omega))
      (by rw [show a + 1 + k = a + (k + 1) by omega]; exact hok)]
    refine Prod.ext (by omega) (Prod.ext ?_ rfl)
    show (sleeps ++ [a + 1]) ++ List.range' (a + 2) k = sleeps ++ List.range' (a + 1) (k + 1)
    rw [List.append_assoc, List.range'_succ]
    rfl

/-- When the first `k` attempts raise `ConnectionException` and attempt
`a + k` raises anything that is not a `ConnectionException`, the
intra-item retry loop re-raises that error immediately: no sleep is added
for it and no further attempt is made. -/
theorem retryFromList_first_other {α : Type} (op : Nat → Except PyExc α) (m : Nat)
    (errAt : Nat → String) (e : PyExc) (he : e.isConnectionException = false) :
    ∀ k a n calls sleeps, k < n → a + n = m →
      (∀ i, a ≤ i → i < a + k → op i = Except.error (.connectionException (errAt i))) →
      op (a + k) = Except.error e →
      retryFromList op m (List.range' a n) calls sleeps
        = (calls + k + 1, sleeps ++ List.range' (a + 1) k, Except.error e) := by
  intro k
  induction k with
  | zero =>
    intro a n calls sleeps hk h2 _ herr
    obtain ⟨n', rfl⟩ : ∃ n', n = n' + 1 := ⟨n - 1, by omega⟩
    rw [List.range'_succ]
    simp only [Nat.add_zero] at herr
    simp [retryFromList, herr, he]
  | succ k ih =>
    intro a n calls sleeps hk h2 hconn herr
    obtain ⟨n', rfl⟩ : ∃ n', n = n' + 1 := ⟨n - 1, by omega⟩
    rw [List.range'_succ]
    have hopa : op a = Except.error (.connectionException (errAt a)) :=
      hconn a le_rfl (by omega)
    have hlt : a < m - 1 := by omega
    have step : retryFromList op m (a :: List.range' (a + 1) n') calls sleeps
        = retryFromList op m (List.range' (a + 1) n') (calls + 1) (sleeps ++ [a + 1]) := by
      simp [retryFromList, hopa, PyExc.isConnectionException, hlt]
    rw [step, ih (a + 1) n' (calls + 1) (sleeps ++ [a + 1]) (by omega) (by omega)
      (fun i hi1 hi2 => hconn i (by omega) (by omega))
      (by rw [show a + 1 + k = a + (k + 1) by omega]; exact herr)]
    refine Prod.ext (by omega) (Prod.ext ?_ rfl)
    show (sleeps ++ [a + 1]) ++ List.range' (a + 2) k = sleeps ++ List.range' (a + 1) (k + 1)
    rw [List.append_assoc, List.range'_succ]
    rfl

/-- When the wrapped operation fails with any exceptions on every attempt,
the whole-item retry loop of batch-URL mode invokes it once per remaining
attempt, sleeps `(attempt + 1) * 2` seconds after every failed attempt but
the last, and records the last attempt's error as the failure. -/
theorem batchRetryFromList_all_fail {α : Type} (op : Nat → Except PyExc α) (m : Nat)
    (errAt : Nat → PyExc) :
    ∀ n a calls sleeps le, 1 ≤ n → a + n = m →
      (∀ i, a ≤ i → i < m → op i = Except.error (errAt i)) →
      batchRetryFromList op m (List.range' a n) calls sleeps le
        = (calls + n, sleeps ++ (List.range' (a + 1) (n - 1)).map (· * 2),
           BatchItemResult.recordedFailure (some (errAt (m - 1)))) := by
  intro n
  induction n with
  | zero => omega
  | succ n ih =>
    intro a calls sleeps le _ h2 hop
    have hopa : op a = Except.error (errAt a) := hop a le_rfl (by omega)
    cases n with
    | zero =>
      have ha : a = m - 1 := by omega
      subst ha
      simp [List.range'_succ, batchRetryFromList, hopa]
    | succ n' =>
      rw [List.range'_succ]
      have hlt : a < m - 1 := by omega
      have step : batchRetryFromList op m (a :: List.range' (a + 1) (n' + 1)) calls sleeps le
          = batchRetryFromList op m (List.range' (a + 1) (n' + 1)) (calls + 1)
              (sleeps ++ [(a + 1) * 2]) (some (errAt a)) := by
        simp [batchRetryFromList, hopa, hlt]
      rw [step, ih (a + 1) (calls + 1) (sleeps ++ [(a + 1) * 2]) (some (errAt a)) (by omega)
        (by omega) (fun i hi1 hi2 => hop i (by omega) hi2)]
      refine Prod.ext (by omega) (Prod.ext ?_ rfl)
      show (sleeps ++ [(a + 1) * 2]) ++ (List.range' (a + 2) n').map (· * 2)
          = sleeps ++ (List.range' (a + 1) (n' + 1)).map (· * 2)
      rw [List.append_assoc, List.range'_succ, List.map_cons]
      rfl

/-- When the first `k` attempts fail with any exceptions and attempt
`a + k` succeeds, the whole-item retry loop returns that attempt's value
after `k + 1` invocations, sleeping after each failed attempt. -/
theorem batchRetryFromList_first_ok {α : Type} (op : Nat → Except PyExc α) (m : Nat)
    (errAt : Nat → PyExc) (v : α) :
    ∀ k a n calls sleeps le, k < n → a + n = m →
      (∀ i, a ≤ i → i < a + k → op i = Except.error (errAt i)) →
      op (a + k) = Except.ok v →
      batchRetryFromList op m (List.range' a n) calls sleeps le
        = (calls + k + 1, sleeps ++ (List.range' (a + 1) k).map (· * 2),
           BatchItemResult.success v) := by
  intro k
  induction k with
  | zero =>
    intro a n calls sleeps le hk h2 _ hok
    obtain ⟨n', rfl⟩ : ∃ n', n = n' + 1 := ⟨n - 1, by omega⟩
    rw [List.range'_succ]
    simp only [Nat.add_zero] at hok
    simp [batchRetryFromList, hok]
  | succ k ih =>
    intro a n calls sleeps le hk h2 hfail hok
    obtain ⟨n', rfl⟩ : ∃ n', n = n' + 1 := ⟨n - 1, by omega⟩
    rw [List.range'_succ]
    have hopa : op a = Except.error (errAt a) := hfail a le_rfl (by omega)
    have hlt : a < m - 1 := by omega
    have step : batchRetryFromList op m (a :: List.range' (a + 1) n') calls sleeps le
        = batchRetryFromList op m (List.range' (a + 1) n') (calls + 1)
            (sleeps ++ [(a + 1) * 2]) (some (errAt a)) := by
      simp [batchRetryFromList, hopa, hlt]
    rw [step, ih (a + 1) n' (calls + 1) (sleeps ++ [(a + 1) * 2]) (some (errAt a)) (by omega)
      (by omega) (fun i hi1 hi2 => hfail i (by omega) (by omega))
      (by rw [show a + 1 + k = a + (k + 1) by omega]; exact hok)]
    refine Prod.ext (by omega) (Prod.ext ?_ rfl)
    show (sleeps ++ [(a + 1) * 2]) ++ (List.range' (a + 2) k).map (· * 2)
        = sleeps ++ (List.range' (a + 1) (k + 1)).map (· * 2)
    rw [List.append_assoc, List.range'_succ, List.map_cons]
    rfl

/-- Every list of strings, embedded into `JsonVal`, is elementwise
hashable. -/
theorem all_pyHashable_map_str (l : List String) :
    (l.map JsonVal.str).all JsonVal.pyHashable = true := by
  induction l with
  | nil => rfl
  | cons a l ih => simp [JsonVal.pyHashable, ih]

/-!
## Claim theorems
-/

/-- C1, counterexample: in the whole-item retry loop of batch-URL mode a
Fatal-classified failure (`ProfileNotExistsException`) raised on every
attempt does not propagate immediately: the loop makes all 3 attempts,
sleeps 2 s and 4 s in between, and ends in a recorded failure, so the
claim that Fatal failures propagate immediately without consuming retry
budget is false for that loop. -/
theorem c1_counterexample :
    classify PyExc.profileNotExists = Severity.fatal ∧
    download_url_with_retry (fun _ => (Except.error PyExc.profileNotExists : Except PyExc Nat)) 3
      = (3, [2, 4], BatchItemResult.recordedFailure (some PyExc.profileNotExists)) ∧
    (download_url_with_retry (fun _ => (Except.error PyExc.profileNotExists : Except PyExc Nat)) 3).2.1
      ≠ ([] : List Nat) :=
  ⟨rfl, rfl, by decide⟩

/-- C1, amended: only the intra-item connection retry wrapper restricts
sleep-and-retry to Retryable failures — an error that is not a
`ConnectionException` (the exact class whose classification is Retryable)
raised on any attempt propagates from it immediately, with no sleep for
it and no further attempt.  The whole-item retry loop of batch-URL mode,
by contrast, sleeps and retries on every exception regardless of
classification and records the last error on exhaustion instead of
propagating it. -/
theorem c1_retry_classification {α : Type} (op opB : Nat → Except PyExc α)
    (errAt : Nat → String) (errBAt : Nat → PyExc) (m : Nat) (hm : 1 ≤ m) :
    (∀ e : PyExc, e.isConnectionException = true ↔ classify e = Severity.retryable) ∧
    (∀ k e, k < m → (∀ i, i < k → op i = Except.error (.connectionException (errAt i))) →
      op k = Except.error e → e.isConnectionException = false →
      retry_on_connection_error op m = (k + 1, List.range' 1 k, Except.error e)) ∧
    ((∀ i, i < m → opB i = Except.error (errBAt i)) →
      download_url_with_retry opB m
        = (m, (List.range' 1 (m - 1)).map (· * 2),
           BatchItemResult.recordedFailure (some (errBAt (m - 1))))) := by
  refine ⟨?_, ?_, ?_⟩
  · intro e
    cases e with
    | osError errno => cases errno <;> simp [PyExc.isConnectionException, classify]
    | _ => simp_all [PyExc.isConnectionException, classify]
  · intro k e hk hconn herr hnc
    unfold retry_on_connection_error
    rw [List.range_eq_range']
    have h := retryFromList_first_other op m errAt e hnc k 0 m 0 [] hk (by omega)
      (fun i _ h2 => hconn i (by omega)) (by simpa using herr)
    simpa using h
  · intro hop
    unfold download_url_with_retry
    rw [List.range_eq_range']
    have h := batchRetryFromList_all_fail opB m errBAt m 0 0 [] none hm (by omega)
      (fun i _ h2 => hop i h2)
    simpa using h

/-- C1, witness: the intra-item wrapper propagates a Fatal error raised on
the first attempt after exactly one invocation and no sleeps, while the
whole-item loop retries a RecoverableSkip-classified error to
exhaustion. -/
theorem c1_witness :
    retry_on_connection_error (fun _ => (Except.error PyExc.profileNotExists : Except PyExc Nat)) 3
      = (1, [], Except.error PyExc.profileNotExists) ∧
    download_url_with_retry (fun _ => (Except.error PyExc.valueError : Except PyExc Nat)) 3
      = (3, [2, 4], BatchItemResult.recordedFailure (some PyExc.valueError)) := by
  constructor
  · exact (c1_retry_classification (fun _ => (Except.error PyExc.profileNotExists : Except PyExc Nat))
      (fun _ => (Except.error PyExc.valueError : Except PyExc Nat)) (fun _ => "") (fun _ => PyExc.valueError)
      3 (by norm_num)).2.1 0 PyExc.profileNotExists (by norm_num)
      (fun i hi => absurd hi (Nat.not_lt_zero i)) rfl rfl
  · exact (c1_retry_classification (fun _ => (Except.error PyExc.profileNotExists : Except PyExc Nat))
      (fun _ => (Except.error PyExc.valueError : Except PyExc Nat)) (fun _ => "") (fun _ => PyExc.valueError)
      3 (by norm_num)).2.2 (fun _ _ => rfl)

/-- C2, counterexample: with `maxRetries = 3` and a Retryable failure on
every attempt, the sleeps actually performed are `[1, 2]` for the
intra-item profile and `[2, 4]` for the whole-item profile — not the
claimed `[1, 2, 3]` and `[2, 4, 6]`: no sleep follows the final failed
attempt. -/
theorem c2_counterexample :
    (retry_on_connection_error (fun _ => (Except.error (PyExc.connectionException "net") : Except PyExc Nat)) 3).2.1 = [1, 2] ∧
    (retry_on_connection_error (fun _ => (Except.error (PyExc.connectionException "net") : Except PyExc Nat)) 3).2.1 ≠ [1, 2, 3] ∧
    (download_url_with_retry (fun _ => (Except.error (PyExc.connectionException "net") : Except PyExc Nat)) 3).2.1 = [2, 4] ∧
    (download_url_with_retry (fun _ => (Except.error (PyExc.connectionException "net") : Except PyExc Nat)) 3).2.1 ≠ [2, 4, 6] := by
  refine ⟨rfl, by decide, rfl, by decide⟩

/-- C2, amended: both profiles make up to 3 attempts and sleep only
between consecutive attempts — `attempt + 1` seconds for the intra-item
profile and `(attempt + 1) * 2` seconds for the whole-item profile — so
an operation failing with a Retryable error on every attempt is invoked
3 times with sleep sequence exactly `[1, 2]` (intra-item), respectively
`[2, 4]` (whole-item, for failures of any classification). -/
theorem c2_backoff_schedule {α : Type} (op opB : Nat → Except PyExc α)
    (errAt : Nat → String) (errBAt : Nat → PyExc) :
    ((∀ i, i < 3 → op i = Except.error (.connectionException (errAt i))) →
      (retry_on_connection_error op 3).1 = 3 ∧
      (retry_on_connection_error op 3).2.1 = [1, 2]) ∧
    ((∀ i, i < 3 → opB i = Except.error (errBAt i)) →
      (download_url_with_retry opB 3).1 = 3 ∧
      (download_url_with_retry opB 3).2.1 = [2, 4]) := by
  constructor
  · intro hop
    unfold retry_on_connection_error
    rw [List.range_eq_range']
    rw [retryFromList_conn_fail op 3 errAt 3 0 0 [] (by norm_num) (by omega)
      (fun i _ h2 => hop i h2)]
    exact ⟨rfl, rfl⟩
  · intro hop
    unfold download_url_with_retry
    rw [List.range_eq_range']
    rw [batchRetryFromList_all_fail opB 3 errBAt 3 0 0 [] none (by norm_num) (by omega)
      (fun i _ h2 => hop i h2)]
    exact ⟨rfl, rfl⟩

/-- C2, witness: the amended backoff schedules evaluated on operations
that fail on every attempt. -/
theorem c2_witness :
    (retry_on_connection_error (fun _ => (Except.error (PyExc.connectionException "net") : Except PyExc Nat)) 3).2.1 = [1, 2] ∧
    (download_url_with_retry (fun _ => (Except.error PyExc.otherException : Except PyExc Nat)) 3).2.1 = [2, 4] :=
  ⟨((c2_backoff_schedule (fun _ => (Except.error (PyExc.connectionException "net") : Except PyExc Nat))
      (fun _ => (Except.error PyExc.otherException : Except PyExc Nat))
      (fun _ => "net") (fun _ => PyExc.otherException)).1 (fun _ _ => rfl)).2,
   ((c2_backoff_schedule (fun _ => (Except.error (PyExc.connectionException "net") : Except PyExc Nat))
      (fun _ => (Except.error PyExc.otherException : Except PyExc Nat))
      (fun _ => "net") (fun _ => PyExc.otherException)).2 (fun _ _ => rfl)).2⟩

/-- C3: for every `maxRetries ≥ 1`, if the wrapped operation raises a
Retryable (connection) error on every attempt, the intra-item retry
wrapper invokes it exactly `maxRetries` times and re-raises the last
attempt's error; and if the first `k` attempts fail retryably and attempt
`k` (`k < maxRetries`) succeeds, the wrapper returns that attempt's
result after exactly `k + 1` invocations. -/
theorem c3_retry_attempt_bounds {α : Type} (op : Nat → Except PyExc α) (m : Nat)
    (errAt : Nat → String) (hm : 1 ≤ m) :
    ((∀ i, i < m → op i = Except.error (.connectionException (errAt i))) →
      retry_on_connection_error op m
        = (m, List.range' 1 (m - 1), Except.error (.connectionException (errAt (m - 1))))) ∧
    (∀ k v, k < m → (∀ i, i < k → op i = Except.error (.connectionException (errAt i))) →
      op k = Except.ok v →
      retry_on_connection_error op m = (k + 1, List.range' 1 k, Except.ok (some v))) := by
  constructor
  · intro hop
    unfold retry_on_connection_error
    rw [List.range_eq_range']
    have h := retryFromList_conn_fail op m errAt m 0 0 [] hm (by omega) (fun i _ h2 => hop i h2)
    simpa using h
  · intro k v hk hconn hok
    unfold retry_on_connection_error
    rw [List.range_eq_range']
    have h := retryFromList_first_ok op m errAt v k 0 m 0 [] hk (by omega)
      (fun i _ h2 => hconn i (by omega)) (by simpa using hok)
    simpa using h

/-- C3, witness: three all-failing attempts give three invocations then
the re-raised error; failures on attempts 0 and 1 followed by success on
attempt 2 give the success after exactly three invocations. -/
theorem c3_witness :
    retry_on_connection_error (fun _ => (Except.error (PyExc.connectionException "x") : Except PyExc Nat)) 3
      = (3, [1, 2], Except.error (PyExc.connectionException "x")) ∧
    retry_on_connection_error (fun i => if i < 2 then (Except.error (PyExc.connectionException "x") : Except PyExc Nat) else Except.ok 42) 3
      = (3, [1, 2], Except.ok (some 42)) := by
  constructor
  · exact (c3_retry_attempt_bounds (fun _ => (Except.error (PyExc.connectionException "x") : Except PyExc Nat)) 3
      (fun _ => "x") (by norm_num)).1 (fun _ _ => rfl)
  · exact (c3_retry_attempt_bounds (fun i => if i < 2 then (Except.error (PyExc.connectionException "x") : Except PyExc Nat) else Except.ok 42) 3
      (fun _ => "x") (by norm_num)).2 2 42 (by norm_num) (fun i hi => by simp [hi]) (by simp)

/-- C4: ledger load is total and never raises — a missing file, a read
error, undecodable JSON, and a non-object top level all yield the empty
set, and a well-formed ledger (both arrays holding strings) yields
exactly the union of the recorded keys of the two arrays. -/
theorem c4_load_progress_total (v : JsonVal) (fields : List (String × JsonVal)) (l1 l2 : List String) :
    load_progress LedgerFile.missing = ∅ ∧
    load_progress LedgerFile.readError = ∅ ∧
    load_progress LedgerFile.invalidJson = ∅ ∧
    ((∀ fs, v ≠ JsonVal.obj fs) → load_progress (.content v) = ∅) ∧
    (jsonGet fields "downloaded_posts" (.arr []) = .arr (l1.map JsonVal.str) →
     jsonGet fields "downloaded_reels" (.arr []) = .arr (l2.map JsonVal.str) →
     load_progress (.content (.obj fields))
       = (l1.map JsonVal.str).toFinset ∪ (l2.map JsonVal.str).toFinset) := by
  refine ⟨rfl, rfl, rfl, ?_, ?_⟩
  · intro hv
    cases v with
    | obj fs => exact absurd rfl (hv fs)
    | null => rfl
    | bool b => rfl
    | num n => rfl
    | str s => rfl
    | arr es => rfl
  · intro h1 h2
    simp only [load_progress, h1, h2, pySet, all_pyHashable_map_str, if_true]

/-- C4, witness: a non-object ledger loads as empty, and a well-formed
one-key ledger loads as that key. -/
theorem c4_witness :
    load_progress (.content (.num 3)) = ∅ ∧
    load_progress (.content (.obj [("downloaded_posts", JsonVal.arr [.str "A"]),
        ("downloaded_reels", JsonVal.arr [])]))
      = ((["A"].map JsonVal.str).toFinset ∪ (([] : List String).map JsonVal.str).toFinset) :=
  ⟨(c4_load_progress_total (.num 3) [] [] []).2.2.2.1 (fun _ h => JsonVal.noConfusion h),
   (c4_load_progress_total (.num 3)
      [("downloaded_posts", JsonVal.arr [.str "A"]), ("downloaded_reels", JsonVal.arr [])]
      ["A"] []).2.2.2.2 rfl rfl⟩

/-- C5, counterexample: `min(max_workers, 8)` has no lower clamp — a
worker count of 0 supplied at construction time yields an effective
concurrency of 0, outside `[1, 8]`. -/
theorem c5_counterexample :
    clamp_max_workers 0 = 0 ∧ ¬(1 ≤ clamp_max_workers 0 ∧ clamp_max_workers 0 ≤ 8) := by
  refine ⟨rfl, ?_⟩
  decide

/-- C5, amended: values above 8 are clamped down to 8 at configuration
time and any value at most 8 is used as given, so the effective
concurrency lies in `[1, 8]` exactly for supplied counts that are at
least 1; counts below 1 are stored unclamped. -/
theorem c5_worker_clamp (w : Int) :
    (8 < w → clamp_max_workers w = 8) ∧
    (w ≤ 8 → clamp_max_workers w = w) ∧
    (1 ≤ w → 1 ≤ clamp_max_workers w ∧ clamp_max_workers w ≤ 8) := by
  unfold clamp_max_workers
  refine ⟨fun h => ?_, fun h => ?_, fun h => ⟨?_, ?_⟩⟩ <;> rw [min_def] <;> split <;> omega

/-- C5, witness: the clamp evaluated at 20, 5 and 3. -/
theorem c5_witness :
    clamp_max_workers 20 = 8 ∧ clamp_max_workers 5 = 5 ∧
    (1 ≤ clamp_max_workers 3 ∧ clamp_max_workers 3 ≤ 8) :=
  ⟨(c5_worker_clamp 20).1 (by norm_num), (c5_worker_clamp 5).2.1 (by norm_num),
   (c5_worker_clamp 3).2.2 (by norm_num)⟩

/-- C6, counterexample: an item that raises `OSError` with an errno other
than `ENOSPC`/`EACCES` — a RecoverableSkip-classified failure — aborts
the sequential loop instead of contributing a zero outcome and
continuing, because the loop re-raises every `OSError` regardless of
errno. -/
theorem c6_counterexample :
    classify (.osError .other) = Severity.recoverableSkip ∧
    download_posts_sequential [.error (.osError .other), .ok (1, 0, 0)] = .error (.osError .other) ∧
    download_posts_sequential [.error (.osError .other), .ok (1, 0, 0)] ≠ .ok [(0, 0, 0), (1, 0, 0)] :=
  ⟨rfl, rfl, fun h => Except.noConfusion h⟩

/-- C6, amended: with concurrency 1 the loop processes items sequentially
and returns outcomes in input order; every Fatal-classified error is in
the loop's re-raise tuple, so an item raising one aborts — no item after
it is attempted (the result does not depend on the remaining items) and
the error propagates; a RecoverableSkip-classified failure that is not an
`OSError` contributes `(0, 0, 0)` and processing continues, while a
raised `OSError` propagates from the loop even when RecoverableSkip-
classified (in the full pipeline `_download_post` converts such errors to
zero outcomes before the loop sees them). -/
theorem c6_sequential_scheduler (e : PyExc) (pre : List Outcome)
    (ys rest : List (Except PyExc Outcome)) :
    (∀ rs : List Outcome, download_posts_sequential (rs.map .ok) = .ok rs) ∧
    (classify e = .fatal → severeInSeqLoop e = true) ∧
    (severeInSeqLoop e = true →
      download_posts_sequential (pre.map .ok ++ .error e :: ys) = .error e) ∧
    (severeInSeqLoop e = false →
      download_posts_sequential (.error e :: rest)
        = (download_posts_sequential rest).map (((0, 0, 0) : Outcome) :: ·)) ∧
    (classify e = .recoverableSkip → (∀ er, e ≠ .osError er) → severeInSeqLoop e = false) := by
  refine ⟨?_, ?_, ?_, ?_, ?_⟩
  · intro rs
    induction rs with
    | nil => rfl
    | cons r rs ih => simp [download_posts_sequential, Except.map, ih]
  · intro hc
    cases e with
    | osError er => rfl
    | _ => simp_all [classify, severeInSeqLoop]
  · intro hs
    induction pre with
    | nil => simp [download_posts_sequential, hs]
    | cons r pre ih => simp [download_posts_sequential, Except.map, ih]
  · intro hs
    simp [download_posts_sequential, hs]
  · intro hc hne
    cases e with
    | osError er => exact absurd rfl (hne er)
    | _ => simp_all [classify, severeInSeqLoop]

/-- C6, witness: ordered outcomes for all-successful items, a Fatal
disk-full error aborting past later items, and a non-`OSError`
RecoverableSkip failure contributing a zero outcome. -/
theorem c6_witness :
    download_posts_sequential ([(1, 0, 0), (0, 1, 0)].map .ok) = .ok [(1, 0, 0), (0, 1, 0)] ∧
    download_posts_sequential ([(1, 0, 0)].map .ok ++ .error (.osError .enospc) :: [.ok (5, 5, 5)])
      = .error (.osError .enospc) ∧
    download_posts_sequential (.error .valueError :: [.ok (1, 0, 0)])
      = (download_posts_sequential [.ok (1, 0, 0)]).map (((0, 0, 0) : Outcome) :: ·) :=
  ⟨(c6_sequential_scheduler .valueError [] [] []).1 [(1, 0, 0), (0, 1, 0)],
   (c6_sequential_scheduler (.osError .enospc) [(1, 0, 0)] [.ok (5, 5, 5)] []).2.2.1 rfl,
   (c6_sequential_scheduler .valueError [] [] [.ok (1, 0, 0)]).2.2.2.1 rfl⟩

/-- C7: with resume enabled, an item whose key is in the ledger yields
`(0, 0, 1)` without touching the state (in particular without a provider
call or a persist); an item not in the ledger is downloaded, its key is
inserted into the in-memory ledger and the ledger is persisted
immediately; and the concrete scenario — ledger `{ABC123, XYZ789}`,
remote items `[ABC123, NEW001]` — yields one skipped file and a final
ledger `{ABC123, XYZ789, NEW001}` both in memory and on disk. -/
theorem c7_resume_ledger (post : Post) (existingFiles : Nat) (fetch : Except PyExc Unit)
    (st : DLState) :
    (post.shortcode ∈ st.downloaded_posts →
      download_post true post existingFiles fetch st = (st, .ok (0, 0, 1))) ∧
    (post.shortcode ∉ st.downloaded_posts →
      download_post true post 0 (.ok ()) st
        = ({ downloaded_posts := insert post.shortcode st.downloaded_posts,
             persisted := some (insert post.shortcode st.downloaded_posts),
             persistCount := st.persistCount + 1,
             providerCalls := st.providerCalls + 1 }, .ok (postCounts post))) ∧
    (run_posts_sequential true
        [(⟨"ABC123", false, none⟩, 0, .ok ()), (⟨"NEW001", false, none⟩, 0, .ok ())]
        ⟨{"ABC123", "XYZ789"}, some {"ABC123", "XYZ789"}, 0, 0⟩).1.downloaded_posts
      = {"ABC123", "XYZ789", "NEW001"} ∧
    (run_posts_sequential true
        [(⟨"ABC123", false, none⟩, 0, .ok ()), (⟨"NEW001", false, none⟩, 0, .ok ())]
        ⟨{"ABC123", "XYZ789"}, some {"ABC123", "XYZ789"}, 0, 0⟩).1.persisted
      = some (insert "NEW001" {"ABC123", "XYZ789"}) ∧
    insert "NEW001" ({"ABC123", "XYZ789"} : Finset String) = {"ABC123", "XYZ789", "NEW001"} ∧
    (run_posts_sequential true
        [(⟨"ABC123", false, none⟩, 0, .ok ()), (⟨"NEW001", false, none⟩, 0, .ok ())]
        ⟨{"ABC123", "XYZ789"}, some {"ABC123", "XYZ789"}, 0, 0⟩).2
      = .ok [(0, 0, 1), (1, 0, 0)] ∧
    skippedTotal [(0, 0, 1), (1, 0, 0)] = 1 := by
  refine ⟨?_, ?_, by decide, rfl, by decide, rfl, rfl⟩
  · intro h
    simp [download_post, is_already_downloaded, h]
  · intro h
    simp [download_post, is_already_downloaded, h]

/-- C7, witness: a ledger hit returns `(0, 0, 1)` with the state intact,
and a ledger miss records and persists the new key. -/
theorem c7_witness :
    download_post true ⟨"A", false, none⟩ 0 (.ok ()) ⟨{"A"}, none, 0, 0⟩
      = (⟨{"A"}, none, 0, 0⟩, .ok (0, 0, 1)) ∧
    download_post true ⟨"B", false, none⟩ 0 (.ok ()) ⟨{"A"}, none, 0, 0⟩
      = (⟨insert "B" {"A"}, some (insert "B" {"A"}), 1, 1⟩, .ok (postCounts ⟨"B", false, none⟩)) :=
  ⟨(c7_resume_ledger ⟨"A", false, none⟩ 0 (.ok ()) ⟨{"A"}, none, 0, 0⟩).1 (by decide),
   (c7_resume_ledger ⟨"B", false, none⟩ 0 (.ok ()) ⟨{"A"}, none, 0, 0⟩).2.1 (by decide)⟩

/-- C8: whenever both ledger arrays are present (a missing array defaults
to empty) and hold hashable values, the loader computes the completed-key
set as the union of the `downloaded_posts` and `downloaded_reels` arrays;
and the writer always writes `downloaded_reels` as an empty array while
writing the full current completed set (sorted) into `downloaded_posts`. -/
theorem c8_ledger_union_and_writer (fields : List (String × JsonVal)) (l1 l2 : List JsonVal)
    (u t : String) (s : Finset String) :
    (jsonGet fields "downloaded_posts" (.arr []) = .arr l1 →
     jsonGet fields "downloaded_reels" (.arr []) = .arr l2 →
     l1.all JsonVal.pyHashable = true → l2.all JsonVal.pyHashable = true →
     load_progress (.content (.obj fields)) = l1.toFinset ∪ l2.toFinset) ∧
    jsonGet (save_progress_fields u t s) "downloaded_reels" (.arr [.str "sentinel"]) = .arr [] ∧
    jsonGet (save_progress_fields u t s) "downloaded_posts" (.arr [])
      = .arr ((s.sort (· ≤ ·)).map JsonVal.str) ∧
    ((s.sort (· ≤ ·)).map JsonVal.str).toFinset = s.image JsonVal.str := by
  refine ⟨?_, rfl, rfl, ?_⟩
  · intro h1 h2 hh1 hh2
    simp only [load_progress, h1, h2, pySet, hh1, hh2, if_true]
  · ext x
    simp [List.mem_map, Finset.mem_sort]

/-- C8, witness: the union computation on a ledger whose object carries an
extra field and whose arrays hold mixed hashable values. -/
theorem c8_witness :
    load_progress (.content (.obj [("downloaded_posts", JsonVal.arr [.str "A", .num 1]),
        ("other", .null), ("downloaded_reels", JsonVal.arr [.str "B"])]))
      = ([JsonVal.str "A", JsonVal.num 1].toFinset ∪ [JsonVal.str "B"].toFinset) :=
  (c8_ledger_union_and_writer
    [("downloaded_posts", JsonVal.arr [.str "A", .num 1]), ("other", .null),
     ("downloaded_reels", JsonVal.arr [.str "B"])]
    [JsonVal.str "A", JsonVal.num 1] [JsonVal.str "B"] "" "" ∅).1 rfl rfl rfl rfl

/-- C9: `total_files` is the sum of the success counters (images, videos,
stories, reels — excluding skipped and error counts), `duration` is
end time minus start time, and the `resumed_from_previous` flag computed
at run start is true exactly when resume was enabled and the loaded
ledger was non-empty. -/
theorem c9_stats_derived (s : DownloadStats) (resume : Bool) (file : LedgerFile)
    (prior : Finset JsonVal) :
    s.total_files
      = s.downloaded_images + s.downloaded_videos + s.stories_downloaded + s.reels_downloaded ∧
    s.duration = s.end_time - s.start_time ∧
    ((load_phase resume file prior).2 = true ↔ resume = true ∧ load_progress file ≠ ∅) := by
  refine ⟨rfl, rfl, ?_⟩
  cases resume with
  | false => simp [load_phase]
  | true => simp [load_phase, Finset.card_pos, Finset.nonempty_iff_ne_empty]

/-- C10: with resume disabled, `_download_post` never mutates the
in-memory completed set, the persisted ledger, or the persist counter, a
successful download still returns its counts, and the run-start load
phase leaves the prior in-memory set untouched and reads nothing from the
ledger file (its result is the same for every file state). -/
theorem c10_no_resume_frame (post : Post) (existingFiles : Nat) (fetch : Except PyExc Unit)
    (st : DLState) (file : LedgerFile) (prior : Finset JsonVal) :
    ((download_post false post existingFiles fetch st).1.downloaded_posts = st.downloaded_posts ∧
     (download_post false post existingFiles fetch st).1.persisted = st.persisted ∧
     (download_post false post existingFiles fetch st).1.persistCount = st.persistCount) ∧
    (download_post false post 0 (.ok ()) st).2 = .ok (postCounts post) ∧
    load_phase false file prior = (prior, false) := by
  refine ⟨?_, rfl, rfl⟩
  unfold download_post
  simp only [Bool.false_and, Bool.false_eq_true, if_false]
  split
  · exact ⟨rfl, rfl, rfl⟩
  · split
    · split <;> exact ⟨rfl, rfl, rfl⟩
    · exact ⟨rfl, rfl, rfl⟩

end IGMediaDownloader
